import Mathlib

/-!
Verification development for the constellation-generator repository.

Shallow embedding of the domain modules the claims concern:
conjunction screening profiles (`conjunction_profiles.py`), the
exponential atmosphere and drag model (`atmosphere.py`), the Keplerian
element converter (`orbital_mechanics.py`), and ground-track generation
(`ground_track.py`).

Python floats are idealised as exact numbers: the profile arithmetic is
embedded over the rationals (all its constants are decimal literals and
its operations are ring operations, min, max and comparisons), and the
orbital-mechanics code, which uses sqrt/cos/sin/exp, is embedded over
the reals.  A Python function that can raise is embedded as a function
into `Option`, returning `none` exactly on the inputs where the source
raises (`ValueError` or `ZeroDivisionError`).
-/

namespace ConstellationGenerator

/-! ### conjunction_profiles.py -/

/-- Embedding of the frozen dataclass `ScreeningProfile`, with the two
numeric fields over the rationals. -/
structure ScreeningProfile where
  profile_id : String
  version : String
  threshold_m : ℚ
  covariance_scale : ℚ
deriving DecidableEq

/-- Embedding of `get_screening_profile`: lookup in the `_PROFILE_PACKS`
dict, `none` modelling the `ValueError` raised on an unknown name. -/
def get_screening_profile (name : String) : Option ScreeningProfile :=
  match name with
  | "conservative" => some
      { profile_id := ("conservative"), version := ("v1"),
        threshold_m := 25000, covariance_scale := 3/2 }
  | "nominal" => some
      { profile_id := ("nominal"), version := ("v1"),
        threshold_m := 15000, covariance_scale := 1 }
  | "aggressive" => some
      { profile_id := ("aggressive"), version := ("v1"),
        threshold_m := 8000, covariance_scale := 3/4 }
  | _ => none

/-- Result record of `evaluate_profiled_screening`: the nested dict it
returns, flattened into a structure (profile echo, input echo, flagged
boolean and the probability band). -/
structure ScreeningResult where
  profile : ScreeningProfile
  miss_distance_m : ℚ
  base_collision_probability : ℚ
  flagged : Bool
  lower : ℚ
  nominal : ℚ
  upper : ℚ
deriving DecidableEq

/-- Embedding of `evaluate_profiled_screening`. -/
def evaluate_profiled_screening (miss_distance_m : ℚ)
    (base_collision_probability : ℚ) (profile_name : String) :
    Option ScreeningResult :=
  match get_screening_profile profile_name with
  | none => none
  | some profile =>
    let scaled_pc :=
      min 1 (max 0 (base_collision_probability * profile.covariance_scale))
    let lower := max 0 (scaled_pc * (7/10))
    let upper := min 1 (scaled_pc * (13/10))
    let flagged :=
      decide (miss_distance_m ≤ profile.threshold_m) || decide (1/10000 ≤ upper)
    some
      { profile := profile,
        miss_distance_m := miss_distance_m,
        base_collision_probability := base_collision_probability,
        flagged := flagged,
        lower := lower,
        nominal := scaled_pc,
        upper := upper }

end ConstellationGenerator

namespace ConstellationGenerator

/-- Helper: the scaled probability is clamped into the unit interval. -/
lemma scaled_pc_mem (x : ℚ) : 0 ≤ min 1 (max 0 x) ∧ min 1 (max 0 x) ≤ 1 := by
  constructor
  · exact le_min (by norm_num) (le_max_left 0 x)
  · exact min_le_left 1 _

/-- C1: for every miss distance, base collision probability and valid
profile name, `evaluate_profiled_screening` returns a band with
`0 ≤ lower ≤ nominal ≤ upper ≤ 1`, and the nominal value is the base
probability scaled by the profile's covariance multiplier and clamped
to the unit interval. -/
theorem evaluate_profiled_screening_band_ordered
    (miss pc : ℚ) (name : String) (res : ScreeningResult)
    (hres : evaluate_profiled_screening miss pc name = some res) :
    0 ≤ res.lower ∧ res.lower ≤ res.nominal ∧ res.nominal ≤ res.upper ∧
      res.upper ≤ 1 ∧
      res.nominal = min 1 (max 0 (pc * res.profile.covariance_scale)) := by
  unfold evaluate_profiled_screening at hres
  cases hprof : get_screening_profile name with
  | none => rw [hprof] at hres; exact absurd hres (by simp)
  | some profile =>
    rw [hprof] at hres
    simp only [Option.some.injEq] at hres
    subst hres
    have hs := scaled_pc_mem (pc * profile.covariance_scale)
    dsimp only
    refine ⟨le_max_left 0 _, ?_, ?_, min_le_left 1 _, rfl⟩
    · apply max_le hs.1
      nlinarith [hs.1]
    · apply le_min hs.2
      nlinarith [hs.1]

/-- Witness for C1 at a concrete input: the nominal profile, a 1 km miss
distance and base probability 1/2. -/
theorem evaluate_profiled_screening_band_ordered_witness :
    evaluate_profiled_screening 1000 (1/2) ("nominal") = some
      { profile := { profile_id := ("nominal"), version := ("v1"),
                     threshold_m := 15000, covariance_scale := 1 },
        miss_distance_m := 1000,
        base_collision_probability := 1/2,
        flagged := true,
        lower := 7/20, nominal := 1/2, upper := 13/20 } ∧
    (0 : ℚ) ≤ 7/20 ∧ (7/20 : ℚ) ≤ 1/2 ∧ (1/2 : ℚ) ≤ 13/20 ∧ (13/20 : ℚ) ≤ 1 := by
  have h : evaluate_profiled_screening 1000 (1/2) ("nominal") = some
      { profile := { profile_id := ("nominal"), version := ("v1"),
                     threshold_m := 15000, covariance_scale := 1 },
        miss_distance_m := 1000,
        base_collision_probability := 1/2,
        flagged := true,
        lower := 7/20, nominal := 1/2, upper := 13/20 } := by
    norm_num [evaluate_profiled_screening, get_screening_profile,
      min_def, max_def]
  have := evaluate_profiled_screening_band_ordered 1000 (1/2) ("nominal") _ h
  exact ⟨h, by norm_num⟩

/-- Helper: every profile pack in `_PROFILE_PACKS` has a nonnegative
covariance scale. -/
lemma screening_scale_nonneg (name : String) (p : ScreeningProfile)
    (hp : get_screening_profile name = some p) : 0 ≤ p.covariance_scale := by
  unfold get_screening_profile at hp
  split at hp
  · injection hp with h; subst h; norm_num
  · injection hp with h; subst h; norm_num
  · injection hp with h; subst h; norm_num
  · exact absurd hp (by simp)

/-- C10: for a fixed valid profile, the flagged output of
`evaluate_profiled_screening` is monotone in encounter severity: if a
call flags, then any call with a smaller-or-equal miss distance and a
larger-or-equal (nonnegative) base probability also flags. -/
theorem evaluate_profiled_screening_flag_monotone
    (name : String) (p : ScreeningProfile)
    (hp : get_screening_profile name = some p)
    (d pc d2 pc2 : ℚ) (res res2 : ScreeningResult)
    (hpc : 0 ≤ pc) (hpc2 : 0 ≤ pc2) (hd : d2 ≤ d) (hple : pc ≤ pc2)
    (h1 : evaluate_profiled_screening d pc name = some res)
    (h2 : evaluate_profiled_screening d2 pc2 name = some res2)
    (hf : res.flagged = true) : res2.flagged = true := by
  have hs : 0 ≤ p.covariance_scale := screening_scale_nonneg name p hp
  unfold evaluate_profiled_screening at h1 h2
  rw [hp] at h1 h2
  simp only [Option.some.injEq] at h1 h2
  subst h1; subst h2
  dsimp only at hf ⊢
  rw [Bool.or_eq_true, decide_eq_true_eq, decide_eq_true_eq] at hf ⊢
  rcases hf with hf | hf
  · exact Or.inl (le_trans hd hf)
  · refine Or.inr (le_trans hf ?_)
    refine min_le_min le_rfl ?_
    refine mul_le_mul_of_nonneg_right ?_ (by norm_num)
    refine min_le_min le_rfl ?_
    exact max_le_max le_rfl (mul_le_mul_of_nonneg_right hple hs)

/-- Screening result of the nominal profile at miss distance 10000 m and
zero base probability. -/
def flaggedSampleA : ScreeningResult :=
  { profile := { profile_id := ("nominal"), version := ("v1"),
                 threshold_m := 15000, covariance_scale := 1 },
    miss_distance_m := 10000, base_collision_probability := 0,
    flagged := true, lower := 0, nominal := 0, upper := 0 }

/-- Screening result of the nominal profile at miss distance 5000 m and
zero base probability. -/
def flaggedSampleB : ScreeningResult :=
  { profile := { profile_id := ("nominal"), version := ("v1"),
                 threshold_m := 15000, covariance_scale := 1 },
    miss_distance_m := 5000, base_collision_probability := 0,
    flagged := true, lower := 0, nominal := 0, upper := 0 }

/-- Witness for C10: tightening a flagged nominal-profile encounter from
10000 m to 5000 m keeps it flagged. -/
theorem evaluate_profiled_screening_flag_monotone_witness :
    (0:ℚ) ≤ 0 ∧ (5000:ℚ) ≤ 10000 ∧
    evaluate_profiled_screening 10000 0 ("nominal") = some flaggedSampleA ∧
    evaluate_profiled_screening 5000 0 ("nominal") = some flaggedSampleB ∧
    flaggedSampleA.flagged = true ∧ flaggedSampleB.flagged = true := by
  have hA : evaluate_profiled_screening 10000 0 ("nominal") =
      some flaggedSampleA := by
    norm_num [evaluate_profiled_screening, get_screening_profile,
      flaggedSampleA, min_def, max_def]
  have hB : evaluate_profiled_screening 5000 0 ("nominal") =
      some flaggedSampleB := by
    norm_num [evaluate_profiled_screening, get_screening_profile,
      flaggedSampleB, min_def, max_def]
  refine ⟨le_rfl, by norm_num, hA, hB, rfl, ?_⟩
  exact evaluate_profiled_screening_flag_monotone ("nominal") _ rfl
    10000 0 5000 0 flaggedSampleA flaggedSampleB le_rfl le_rfl (by norm_num)
    le_rfl hA hB rfl

/-! ### orbital_mechanics.py constants -/

/-- Embedding of the `OrbitalConstants` singleton: Earth gravitational
parameter (m³/s²). -/
def MU_EARTH : ℝ := 3.986004418e14

/-- Embedding of the `OrbitalConstants` singleton: Earth mean radius (m). -/
def R_EARTH : ℝ := 6371000

/-! ### atmosphere.py -/

/-- Embedding of the exponential atmosphere lookup table
`_ATMOSPHERE_TABLE`: rows of (base altitude km, base density kg/m³,
scale height km). -/
def _ATMOSPHERE_TABLE : List (ℝ × ℝ × ℝ) :=
  [(100, 5.297e-7, 5.877),
   (150, 2.070e-9, 22.523),
   (200, 2.541e-10, 53.298),
   (250, 6.967e-11, 68.019),
   (300, 2.508e-11, 76.680),
   (350, 1.172e-11, 84.852),
   (400, 6.097e-12, 89.412),
   (450, 3.510e-12, 97.498),
   (500, 2.150e-12, 112.458),
   (600, 8.620e-13, 133.060),
   (700, 3.614e-13, 150.580),
   (800, 1.454e-13, 164.441),
   (900, 5.811e-14, 175.579),
   (1000, 2.302e-14, 188.667),
   (1100, 9.661e-15, 200.000),
   (1200, 4.297e-15, 210.000),
   (1300, 2.036e-15, 218.000),
   (1400, 1.024e-15, 225.000),
   (1500, 5.448e-16, 231.000),
   (1600, 3.059e-16, 236.000),
   (1700, 1.806e-16, 240.000),
   (1800, 1.115e-16, 243.000),
   (1900, 7.170e-17, 245.000),
   (2000, 4.789e-17, 247.000)]

/-- Base altitude of table row `i` (the `[0]` component). -/
def tAlt (i : ℕ) : ℝ := (_ATMOSPHERE_TABLE.getD i (0, 0, 0)).1

/-- Base density of table row `i` (the `[1]` component). -/
def tRho (i : ℕ) : ℝ := (_ATMOSPHERE_TABLE.getD i (0, 0, 0)).2.1

/-- Scale height of table row `i` (the `[2]` component). -/
def tH (i : ℕ) : ℝ := (_ATMOSPHERE_TABLE.getD i (0, 0, 0)).2.2

open Classical

/-- Embedding of the `while lo < hi - 1` bracket-search loop in
`atmospheric_density`, as a recursion on the pair of cursors (the loop
state).  Each iteration halves the bracket, so the recursion is on the
width `hi - lo`. -/
noncomputable def bracketSearch (h : ℝ) (lo hi : ℕ) : ℕ :=
  if lo < hi - 1 then
    let mid := (lo + hi) / 2
    if tAlt mid ≤ h then bracketSearch h mid hi else bracketSearch h lo mid
  else lo
termination_by hi - lo
decreasing_by
  · omega
  · omega

/-- Unfolding equation for `bracketSearch` with the `let` inlined. -/
lemma bracketSearch_eq (h : ℝ) (lo hi : ℕ) :
    bracketSearch h lo hi =
      if lo < hi - 1 then
        (if tAlt ((lo + hi) / 2) ≤ h then bracketSearch h ((lo + hi) / 2) hi
         else bracketSearch h lo ((lo + hi) / 2))
      else lo := by
  rw [bracketSearch]

/-- Embedding of `atmospheric_density`: range check modelling the
`ValueError`, then bracket search and exponential interpolation. -/
noncomputable def atmospheric_density (altitude_km : ℝ) : Option ℝ :=
  if altitude_km < tAlt 0 ∨ tAlt 23 < altitude_km then none
  else
    let lo := bracketSearch altitude_km 0 23
    some (tRho lo * Real.exp (-(altitude_km - tAlt lo) / tH lo))

/-- Loop invariant of the bracket search: starting from a bracket whose
low edge is at or below `h` and whose high edge is either above `h` or
the last row, the search lands on a row with the same property one step
wide. -/
lemma bracketSearch_spec (h : ℝ) : ∀ n lo hi, hi - lo ≤ n → lo < hi →
    hi ≤ 23 → tAlt lo ≤ h → (h < tAlt hi ∨ hi = 23) →
    lo ≤ bracketSearch h lo hi ∧ bracketSearch h lo hi + 1 ≤ hi ∧
      tAlt (bracketSearch h lo hi) ≤ h ∧
      (h < tAlt (bracketSearch h lo hi + 1) ∨ bracketSearch h lo hi + 1 = 23) := by
  intro n
  induction n with
  | zero => intro lo hi hle hlt _ _ _; omega
  | succ n ih =>
    intro lo hi hle hlt hhi hlo hup
    rw [bracketSearch_eq]
    by_cases hcond : lo < hi - 1
    · rw [if_pos hcond]
      have hmid1 : lo < (lo + hi) / 2 := by omega
      have hmid2 : (lo + hi) / 2 < hi := by omega
      by_cases hc2 : tAlt ((lo + hi) / 2) ≤ h
      · rw [if_pos hc2]
        obtain ⟨g1, g2, g3, g4⟩ :=
          ih ((lo + hi) / 2) hi (by omega) (by omega) hhi hc2 hup
        exact ⟨by omega, g2, g3, g4⟩
      · rw [if_neg hc2]
        obtain ⟨g1, g2, g3, g4⟩ :=
          ih lo ((lo + hi) / 2) (by omega) (by omega) (by omega) hlo
            (Or.inl (lt_of_not_le hc2))
        exact ⟨g1, by omega, g3, g4⟩
    · rw [if_neg hcond]
      have hone : hi = lo + 1 := by omega
      subst hone
      exact ⟨le_rfl, le_rfl, hlo, hup⟩

/-- Consecutive table rows have strictly increasing base altitudes. -/
lemma tAlt_step : ∀ j : ℕ, j < 23 → tAlt j < tAlt (j + 1) := by
  intro j hj
  interval_cases j <;>
    norm_num [show tAlt 0 = (100 : ℝ) from rfl, show tAlt 1 = (150 : ℝ) from rfl,
      show tAlt 2 = (200 : ℝ) from rfl, show tAlt 3 = (250 : ℝ) from rfl,
      show tAlt 4 = (300 : ℝ) from rfl, show tAlt 5 = (350 : ℝ) from rfl,
      show tAlt 6 = (400 : ℝ) from rfl, show tAlt 7 = (450 : ℝ) from rfl,
      show tAlt 8 = (500 : ℝ) from rfl, show tAlt 9 = (600 : ℝ) from rfl,
      show tAlt 10 = (700 : ℝ) from rfl, show tAlt 11 = (800 : ℝ) from rfl,
      show tAlt 12 = (900 : ℝ) from rfl, show tAlt 13 = (1000 : ℝ) from rfl,
      show tAlt 14 = (1100 : ℝ) from rfl, show tAlt 15 = (1200 : ℝ) from rfl,
      show tAlt 16 = (1300 : ℝ) from rfl, show tAlt 17 = (1400 : ℝ) from rfl,
      show tAlt 18 = (1500 : ℝ) from rfl, show tAlt 19 = (1600 : ℝ) from rfl,
      show tAlt 20 = (1700 : ℝ) from rfl, show tAlt 21 = (1800 : ℝ) from rfl,
      show tAlt 22 = (1900 : ℝ) from rfl, show tAlt 23 = (2000 : ℝ) from rfl]

/-- Base altitudes are monotone over the table. -/
lemma tAlt_mono : ∀ p q : ℕ, p ≤ q → q ≤ 23 → tAlt p ≤ tAlt q := by
  intro p q hpq hq
  induction q with
  | zero =>
    have hp0 : p = 0 := by omega
    simp [hp0]
  | succ m ihm =>
    rcases Nat.lt_or_ge p (m + 1) with hlt | hge
    · have h1 := ihm (by omega) (by omega)
      have h2 := tAlt_step m (by omega)
      linarith
    · have hpm : p = m + 1 := by omega
      simp [hpm]

/-- C3: `atmospheric_density` succeeds exactly on altitudes in the
closed range 100 to 2000 km; outside it the source raises `ValueError`,
modelled by `none`. -/
theorem atmospheric_density_range (h : ℝ) :
    (atmospheric_density h).isSome = true ↔ (100 ≤ h ∧ h ≤ 2000) := by
  constructor
  · intro hs
    by_contra hc
    have hnone : atmospheric_density h = none := by
      unfold atmospheric_density
      rw [if_pos]
      rw [show tAlt 0 = (100 : ℝ) from rfl, show tAlt 23 = (2000 : ℝ) from rfl]
      rcases not_and_or.mp hc with hc1 | hc1
      · exact Or.inl (not_le.mp hc1)
      · exact Or.inr (not_le.mp hc1)
    rw [hnone] at hs
    exact absurd hs (by simp)
  · rintro ⟨hge, hle⟩
    have hsome : atmospheric_density h =
        some (tRho (bracketSearch h 0 23) *
          Real.exp (-(h - tAlt (bracketSearch h 0 23)) / tH (bracketSearch h 0 23))) := by
      unfold atmospheric_density
      rw [if_neg]
      rw [show tAlt 0 = (100 : ℝ) from rfl, show tAlt 23 = (2000 : ℝ) from rfl,
        not_or]
      exact ⟨not_lt.mpr hge, not_lt.mpr hle⟩
    rw [hsome]
    rfl

/-- C4: for in-range altitudes the density is the exponential
interpolation from the bracketing row — the greatest base altitude at
or below `h` among the first 23 rows (so the final interval is
1900 to 2000 km). -/
theorem atmospheric_density_bracket (h : ℝ) (h1 : 100 ≤ h) (h2 : h ≤ 2000) :
    ∃ i : ℕ, i ≤ 22 ∧ tAlt i ≤ h ∧
      (∀ j : ℕ, j ≤ 22 → tAlt j ≤ h → j ≤ i) ∧
      atmospheric_density h = some (tRho i * Real.exp (-(h - tAlt i) / tH i)) := by
  have h100 : tAlt 0 ≤ h := by rw [show tAlt 0 = 100 from rfl]; exact h1
  obtain ⟨hge, hle, hmem, hbr⟩ :=
    bracketSearch_spec h 23 0 23 (by omega) (by omega) (by omega) h100 (Or.inr rfl)
  refine ⟨bracketSearch h 0 23, by omega, hmem, ?_, ?_⟩
  · intro j hj hja
    by_contra hgt
    push_neg at hgt
    rcases hbr with hlt | heq
    · have hmo : tAlt (bracketSearch h 0 23 + 1) ≤ tAlt j :=
        tAlt_mono _ _ (by omega) (by omega)
      linarith
    · omega
  · unfold atmospheric_density
    rw [if_neg]
    rw [show tAlt 0 = (100 : ℝ) from rfl, show tAlt 23 = (2000 : ℝ) from rfl,
      not_or]
    exact ⟨not_lt.mpr h1, not_lt.mpr h2⟩

/-- Witness for C4 at altitude 150 km. -/
theorem atmospheric_density_bracket_witness :
    (100 : ℝ) ≤ 150 ∧ (150 : ℝ) ≤ 2000 ∧
    ∃ i : ℕ, i ≤ 22 ∧ tAlt i ≤ 150 ∧
      (∀ j : ℕ, j ≤ 22 → tAlt j ≤ 150 → j ≤ i) ∧
      atmospheric_density 150 =
        some (tRho i * Real.exp (-(150 - tAlt i) / tH i)) :=
  ⟨by norm_num, by norm_num,
    atmospheric_density_bracket 150 (by norm_num) (by norm_num)⟩

/-- Embedding of the frozen dataclass `DragConfig`.  The Python
dataclass has no `__post_init__` and performs no validation, so
construction is total. -/
structure DragConfig where
  cd : ℝ
  area_m2 : ℝ
  mass_kg : ℝ

/-- Embedding of the `ballistic_coefficient` property
`cd * area_m2 / mass_kg`; `none` models the `ZeroDivisionError` raised
when the mass is exactly zero, the only input where the source raises. -/
noncomputable def ballistic_coefficient (cfg : DragConfig) : Option ℝ :=
  if cfg.mass_kg = 0 then none
  else some (cfg.cd * cfg.area_m2 / cfg.mass_kg)

/-- Embedding of `drag_acceleration`: `0.5 * rho * v^2 * Bc`. -/
noncomputable def drag_acceleration (density velocity : ℝ)
    (drag_config : DragConfig) : Option ℝ :=
  match ballistic_coefficient drag_config with
  | none => none
  | some bc => some (0.5 * density * velocity ^ 2 * bc)

/-- Embedding of `semi_major_axis_decay_rate`.  `none` models the
exceptions of the source: `ZeroDivisionError` for `a = 0` or zero mass,
`ValueError` from `math.sqrt` on a negative radicand, and the range
`ValueError` from `atmospheric_density`. -/
noncomputable def semi_major_axis_decay_rate (a e : ℝ)
    (drag_config : DragConfig) : Option ℝ :=
  if a = 0 then none
  else if MU_EARTH / a < 0 then none
  else
    match atmospheric_density ((a - R_EARTH) / 1000),
        ballistic_coefficient drag_config with
    | some rho, some bc => some (-rho * Real.sqrt (MU_EARTH / a) * bc * a)
    | _, _ => none

/-- Counterexample for C6: a `DragConfig` with negative area and
negative mass is accepted, and `ballistic_coefficient` and
`drag_acceleration` return values instead of raising. -/
theorem dragconfig_nonpositive_accepted_counterexample :
    ballistic_coefficient (DragConfig.mk 2 (-1) (-5)) = some (2/5) ∧
    drag_acceleration 1 2 (DragConfig.mk 2 (-1) (-5)) =
      some (0.5 * 1 * 2 ^ 2 * (2/5)) := by
  have hbc : ballistic_coefficient (DragConfig.mk 2 (-1) (-5)) = some (2/5) := by
    unfold ballistic_coefficient
    rw [if_neg (by norm_num : ¬((DragConfig.mk 2 (-1) (-5)).mass_kg = 0))]
    norm_num
  refine ⟨hbc, ?_⟩
  unfold drag_acceleration
  rw [hbc]

/-- C6 amended: the drag configuration is not validated — for any
configuration with nonzero mass (including negative mass or
non-positive area), `ballistic_coefficient` and `drag_acceleration`
return a value; only an exactly-zero mass raises, as a division by
zero rather than a domain check. -/
theorem dragconfig_no_validation (cfg : DragConfig) (hm : cfg.mass_kg ≠ 0) :
    (ballistic_coefficient cfg).isSome = true ∧
    ∀ density velocity : ℝ,
      (drag_acceleration density velocity cfg).isSome = true := by
  have hbc : ballistic_coefficient cfg =
      some (cfg.cd * cfg.area_m2 / cfg.mass_kg) := by
    unfold ballistic_coefficient
    rw [if_neg hm]
  constructor
  · rw [hbc]; rfl
  · intro density velocity
    unfold drag_acceleration
    rw [hbc]
    rfl

/-- Witness for the amended C6 at the counterexample configuration. -/
theorem dragconfig_no_validation_witness :
    (DragConfig.mk 2 (-1) (-5)).mass_kg ≠ 0 ∧
    ((ballistic_coefficient (DragConfig.mk 2 (-1) (-5))).isSome = true ∧
     ∀ density velocity : ℝ,
       (drag_acceleration density velocity (DragConfig.mk 2 (-1) (-5))).isSome
         = true) :=
  ⟨by norm_num, dragconfig_no_validation (DragConfig.mk 2 (-1) (-5)) (by norm_num)⟩

/-- C7: on the valid altitude band and with positive mass, the decay
rate is `-rho(h) * sqrt(mu/a) * (cd*A/m) * a` and does not depend on
the eccentricity argument. -/
theorem semi_major_axis_decay_rate_formula (a e : ℝ) (cfg : DragConfig)
    (rho : ℝ)
    (h1 : 100 ≤ (a - R_EARTH) / 1000) (h2 : (a - R_EARTH) / 1000 ≤ 2000)
    (hm : 0 < cfg.mass_kg)
    (hrho : atmospheric_density ((a - R_EARTH) / 1000) = some rho) :
    semi_major_axis_decay_rate a e cfg =
      some (-rho * Real.sqrt (MU_EARTH / a) *
        (cfg.cd * cfg.area_m2 / cfg.mass_kg) * a) ∧
    ∀ e' : ℝ,
      semi_major_axis_decay_rate a e cfg =
        semi_major_axis_decay_rate a e' cfg := by
  have hapos : 0 < a := by
    have hstep : (100 : ℝ) * 1000 ≤ a - R_EARTH :=
      (le_div_iff (by norm_num : (0:ℝ) < 1000)).mp h1
    have hR : R_EARTH = (6371000 : ℝ) := rfl
    rw [hR] at hstep
    linarith
  have hmu : ¬(MU_EARTH / a < 0) := by
    have hMU : (0:ℝ) < MU_EARTH := by norm_num [MU_EARTH]
    exact not_lt.mpr (le_of_lt (div_pos hMU hapos))
  have hbc : ballistic_coefficient cfg =
      some (cfg.cd * cfg.area_m2 / cfg.mass_kg) := by
    unfold ballistic_coefficient
    rw [if_neg hm.ne']
  constructor
  · unfold semi_major_axis_decay_rate
    rw [if_neg hapos.ne', if_neg hmu, hrho, hbc]
  · intro e'
    rfl

/-- Concrete density at 500 km altitude (table row 8). -/
noncomputable def rho500 : ℝ := tRho 8 * Real.exp (-((500:ℝ) - tAlt 8) / tH 8)

/-- The bracket search at 500 km selects row 8. -/
lemma bracketSearch_500 : bracketSearch 500 0 23 = 8 := by
  rw [bracketSearch_eq]
  norm_num [show tAlt 11 = (800 : ℝ) from rfl]
  rw [bracketSearch_eq]
  norm_num [show tAlt 5 = (350 : ℝ) from rfl]
  rw [bracketSearch_eq]
  norm_num [show tAlt 8 = (500 : ℝ) from rfl]
  rw [bracketSearch_eq]
  norm_num [show tAlt 9 = (600 : ℝ) from rfl]
  rw [bracketSearch_eq]
  norm_num

/-- Concrete evaluation of the density model at the altitude reached
from a 6871 km semi-major axis. -/
lemma atmospheric_density_at_500 :
    atmospheric_density (((6871000:ℝ) - R_EARTH) / 1000) = some rho500 := by
  have h500 : ((6871000:ℝ) - R_EARTH) / 1000 = 500 := by norm_num [R_EARTH]
  rw [h500]
  unfold atmospheric_density
  rw [if_neg]
  · rw [bracketSearch_500]
    rfl
  · rw [show tAlt 0 = (100 : ℝ) from rfl, show tAlt 23 = (2000 : ℝ) from rfl,
      not_or]
    constructor <;> norm_num

/-- Witness for C7 at a 6871 km semi-major axis (500 km altitude) and a
2.0 Cd / 4 m² / 100 kg drag configuration. -/
theorem semi_major_axis_decay_rate_formula_witness :
    (100 : ℝ) ≤ ((6871000:ℝ) - R_EARTH) / 1000 ∧
    ((6871000:ℝ) - R_EARTH) / 1000 ≤ 2000 ∧
    (0 : ℝ) < (DragConfig.mk 2 4 100).mass_kg ∧
    atmospheric_density (((6871000:ℝ) - R_EARTH) / 1000) = some rho500 ∧
    (semi_major_axis_decay_rate 6871000 0 (DragConfig.mk 2 4 100) =
      some (-rho500 * Real.sqrt (MU_EARTH / 6871000) * (2 * 4 / 100) * 6871000) ∧
     ∀ e' : ℝ,
       semi_major_axis_decay_rate 6871000 0 (DragConfig.mk 2 4 100) =
         semi_major_axis_decay_rate 6871000 e' (DragConfig.mk 2 4 100)) :=
  ⟨by norm_num [R_EARTH], by norm_num [R_EARTH], by norm_num,
   atmospheric_density_at_500,
   semi_major_axis_decay_rate_formula 6871000 0 (DragConfig.mk 2 4 100) rho500
     (by norm_num [R_EARTH]) (by norm_num [R_EARTH]) (by norm_num)
     atmospheric_density_at_500⟩

/-! ### orbital_mechanics.py: kepler_to_cartesian -/

/-- Row-vector dot product used by the list comprehension
`sum(rotation[j][k] * v[k] for k in range(3))`. -/
def dot3 (u v : ℝ × ℝ × ℝ) : ℝ :=
  u.1 * v.1 + u.2.1 * v.2.1 + u.2.2 * v.2.2

/-- Embedding of `kepler_to_cartesian`.  `none` models the exceptions
the source can raise: `ZeroDivisionError` when `1 + e*cos(nu)` or
`a*(1 - e^2)` is zero, and `ValueError` from `math.sqrt` when the
radicand `mu/(a*(1 - e^2))` is negative. -/
noncomputable def kepler_to_cartesian
    (a e i_rad omega_big_rad omega_small_rad nu_rad : ℝ) :
    Option ((ℝ × ℝ × ℝ) × (ℝ × ℝ × ℝ)) :=
  if 1 + e * Real.cos nu_rad = 0 then none
  else if a * (1 - e ^ 2) = 0 then none
  else if MU_EARTH / (a * (1 - e ^ 2)) < 0 then none
  else
    let r := a * (1 - e ^ 2) / (1 + e * Real.cos nu_rad)
    let p_fac := Real.sqrt (MU_EARTH / (a * (1 - e ^ 2)))
    let pos_pqw : ℝ × ℝ × ℝ := (r * Real.cos nu_rad, r * Real.sin nu_rad, 0)
    let vel_pqw : ℝ × ℝ × ℝ :=
      (-p_fac * Real.sin nu_rad, p_fac * (e + Real.cos nu_rad), 0)
    let cO := Real.cos omega_big_rad
    let sO := Real.sin omega_big_rad
    let co := Real.cos omega_small_rad
    let so := Real.sin omega_small_rad
    let ci := Real.cos i_rad
    let si := Real.sin i_rad
    let row0 : ℝ × ℝ × ℝ := (cO * co - sO * so * ci, -cO * so - sO * co * ci, sO * si)
    let row1 : ℝ × ℝ × ℝ := (sO * co + cO * so * ci, -sO * so + cO * co * ci, -cO * si)
    let row2 : ℝ × ℝ × ℝ := (so * si, co * si, ci)
    some ((dot3 row0 pos_pqw, dot3 row1 pos_pqw, dot3 row2 pos_pqw),
          (dot3 row0 vel_pqw, dot3 row1 vel_pqw, dot3 row2 vel_pqw))

/-- Elementary rotation about the Z axis by angle `t` (the matrix
`Rz(t)` applied to a vector). -/
noncomputable def rotZ (t : ℝ) (v : ℝ × ℝ × ℝ) : ℝ × ℝ × ℝ :=
  (Real.cos t * v.1 - Real.sin t * v.2.1,
   Real.sin t * v.1 + Real.cos t * v.2.1,
   v.2.2)

/-- Elementary rotation about the X axis by angle `t` (the matrix
`Rx(t)` applied to a vector). -/
noncomputable def rotX (t : ℝ) (v : ℝ × ℝ × ℝ) : ℝ × ℝ × ℝ :=
  (v.1,
   Real.cos t * v.2.1 - Real.sin t * v.2.2,
   Real.sin t * v.2.1 + Real.cos t * v.2.2)

/-- The standard 3-1-3 Euler rotation from the perifocal frame to ECI:
the matrix `Rz(Omega) * Rx(i) * Rz(omega)` applied to a vector, written
as the composition of the three elementary rotations. -/
noncomputable def rot313 (omega_big i omega_small : ℝ) (v : ℝ × ℝ × ℝ) :
    ℝ × ℝ × ℝ :=
  rotZ omega_big (rotX i (rotZ omega_small v))

/-- Reference perifocal construction, written from the specification:
radius `r = a(1-e^2)/(1+e cos nu)`, PQW position `(r cos nu, r sin nu, 0)`,
PQW velocity `sqrt(mu/(a(1-e^2))) * (-sin nu, e + cos nu, 0)`, both
rotated into ECI by the standard 3-1-3 Euler rotation. -/
noncomputable def keplerToCartesianRef
    (a e i_rad omega_big_rad omega_small_rad nu_rad : ℝ) :
    (ℝ × ℝ × ℝ) × (ℝ × ℝ × ℝ) :=
  let r := a * (1 - e ^ 2) / (1 + e * Real.cos nu_rad)
  let s := Real.sqrt (MU_EARTH / (a * (1 - e ^ 2)))
  let pos_pqw : ℝ × ℝ × ℝ := (r * Real.cos nu_rad, r * Real.sin nu_rad, 0)
  let vel_pqw : ℝ × ℝ × ℝ :=
    (s * (-(Real.sin nu_rad)), s * (e + Real.cos nu_rad), 0)
  (rot313 omega_big_rad i_rad omega_small_rad pos_pqw,
   rot313 omega_big_rad i_rad omega_small_rad vel_pqw)

/-- Helper: the true-anomaly denominator is positive on the elliptical
domain. -/
lemma kepler_denom_pos (e nu : ℝ) (he0 : 0 ≤ e) (he1 : e < 1) :
    0 < 1 + e * Real.cos nu := by
  have hc : -1 ≤ Real.cos nu := Real.neg_one_le_cos nu
  have := mul_le_mul_of_nonneg_left hc he0
  linarith

/-- Helper: the semi-latus parameter `a*(1-e^2)` is positive on the
elliptical domain. -/
lemma kepler_param_pos (a e : ℝ) (ha : 0 < a) (he0 : 0 ≤ e) (he1 : e < 1) :
    0 < a * (1 - e ^ 2) := by
  have h2 : e ^ 2 < 1 := by nlinarith
  nlinarith

/-- C2: on the elliptical domain the embedding of `kepler_to_cartesian`
returns exactly the reference perifocal construction rotated by the
standard 3-1-3 Euler rotation. -/
theorem kepler_to_cartesian_ref_eq
    (a e i_rad omega_big_rad omega_small_rad nu_rad : ℝ)
    (ha : 0 < a) (he0 : 0 ≤ e) (he1 : e < 1) :
    kepler_to_cartesian a e i_rad omega_big_rad omega_small_rad nu_rad =
      some (keplerToCartesianRef a e i_rad omega_big_rad omega_small_rad nu_rad)
    := by
  have hd := kepler_denom_pos e nu_rad he0 he1
  have hp := kepler_param_pos a e ha he0 he1
  have hmu : 0 ≤ MU_EARTH / (a * (1 - e ^ 2)) :=
    div_nonneg (by norm_num [MU_EARTH]) hp.le
  unfold kepler_to_cartesian
  rw [if_neg hd.ne', if_neg hp.ne', if_neg (not_lt.mpr hmu)]
  unfold keplerToCartesianRef rot313 rotZ rotX dot3
  dsimp only
  refine congrArg some ?_
  simp only [Prod.mk.injEq]
  exact ⟨⟨by ring, by ring, by ring⟩, by ring, by ring, by ring⟩

/-- Witness for C2 at `a = 2`, `e = 0`, all angles zero. -/
theorem kepler_to_cartesian_ref_eq_witness :
    ((0:ℝ) < 2 ∧ (0:ℝ) ≤ 0 ∧ (0:ℝ) < 1) ∧
    kepler_to_cartesian 2 0 0 0 0 0 = some (keplerToCartesianRef 2 0 0 0 0 0) :=
  ⟨⟨by norm_num, le_rfl, by norm_num⟩,
   kepler_to_cartesian_ref_eq 2 0 0 0 0 0 (by norm_num) le_rfl (by norm_num)⟩

/-- Helper: `kepler_to_cartesian` hits no raising branch on the
elliptical domain. -/
lemma kepler_elliptic_isSome
    (a e i_rad omega_big_rad omega_small_rad nu_rad : ℝ)
    (ha : 0 < a) (he0 : 0 ≤ e) (he1 : e < 1) :
    (kepler_to_cartesian a e i_rad omega_big_rad omega_small_rad nu_rad).isSome
      = true := by
  have hd := kepler_denom_pos e nu_rad he0 he1
  have hp := kepler_param_pos a e ha he0 he1
  have hmu : 0 ≤ MU_EARTH / (a * (1 - e ^ 2)) :=
    div_nonneg (by norm_num [MU_EARTH]) hp.le
  unfold kepler_to_cartesian
  rw [if_neg hd.ne', if_neg hp.ne', if_neg (not_lt.mpr hmu)]
  rfl

/-- C8: `kepler_to_cartesian` is total on the elliptical domain: for
`a > 0` and `0 ≤ e < 1` no branch raises, for any angles including the
degenerate circular and equatorial cases. -/
theorem kepler_to_cartesian_total
    (a e i_rad omega_big_rad omega_small_rad nu_rad : ℝ)
    (ha : 0 < a) (he0 : 0 ≤ e) (he1 : e < 1) :
    (kepler_to_cartesian a e i_rad omega_big_rad omega_small_rad nu_rad).isSome
      = true :=
  kepler_elliptic_isSome a e i_rad omega_big_rad omega_small_rad nu_rad
    ha he0 he1

/-- Witness for C8 at `a = 1`, `e = 1/2`, and degenerate zero angles. -/
theorem kepler_to_cartesian_total_witness :
    ((0:ℝ) < 1 ∧ (0:ℝ) ≤ 1/2 ∧ (1/2:ℝ) < 1) ∧
    (kepler_to_cartesian 1 (1/2) 0 0 0 0).isSome = true :=
  ⟨⟨by norm_num, by norm_num, by norm_num⟩,
   kepler_to_cartesian_total 1 (1/2) 0 0 0 0 (by norm_num) (by norm_num)
     (by norm_num)⟩

/-! ### ground_track.py

Datetimes and timedeltas are modelled as real-valued seconds, so
`timedelta.total_seconds()` is the identity and datetime addition is
real addition. -/

/-- Embedding of the frozen dataclass `GroundTrackPoint`. -/
structure GroundTrackPoint where
  time : ℝ
  lat_deg : ℝ
  lon_deg : ℝ
  alt_km : ℝ

/-- The satellite domain object as consumed by `compute_ground_track`:
ECI state, RAAN and true anomaly in degrees, optional epoch. -/
structure Satellite where
  position_eci : ℝ × ℝ × ℝ
  velocity_eci : ℝ × ℝ × ℝ
  raan_deg : ℝ
  true_anomaly_deg : ℝ
  epoch : Option ℝ

/-- Modelled from the spec: the module `coordinate_frames.py`
(`gmst_rad`, `eci_to_ecef`, `ecef_to_geodetic`) is not among the
sources; per the spec all three are total transforms (GMST polynomial,
Z-axis rotation with velocity correction, WGS84 conversion that returns
zero gracefully for the zero vector).  They are modelled as an abstract
interface of total functions consumed by `compute_ground_track`. -/
structure CoordFrames where
  gmst_rad : ℝ → ℝ
  eci_to_ecef : (ℝ × ℝ × ℝ) → (ℝ × ℝ × ℝ) → ℝ → (ℝ × ℝ × ℝ) × (ℝ × ℝ × ℝ)
  ecef_to_geodetic : (ℝ × ℝ × ℝ) → ℝ × ℝ × ℝ

/-- Embedding of `math.radians`. -/
noncomputable def radians (deg : ℝ) : ℝ := deg * (Real.pi / 180)

/-- Embedding of the sampling `while` loop of `compute_ground_track`:
one recursive step per loop iteration, advancing `elapsed` by the step.
The recursion terminates because `elapsed` strictly increases by a
positive step towards the `duration + 1e-9` cutoff. -/
noncomputable def groundTrackLoop (F : CoordFrames)
    (start duration_seconds step_seconds a inc_rad raan_rad nu_at_start n : ℝ)
    (hstep : 0 < step_seconds) (elapsed : ℝ) :
    Option (List GroundTrackPoint) :=
  if _h : elapsed ≤ duration_seconds + 1e-9 then
    match kepler_to_cartesian a 0 inc_rad raan_rad 0
        (nu_at_start + n * elapsed) with
    | none => none
    | some pv =>
      let current_time := start + elapsed
      let gmst_angle := F.gmst_rad current_time
      let pe := F.eci_to_ecef pv.1 (0, 0, 0) gmst_angle
      let geo := F.ecef_to_geodetic pe.1
      match groundTrackLoop F start duration_seconds step_seconds a inc_rad
          raan_rad nu_at_start n hstep (elapsed + step_seconds) with
      | none => none
      | some rest =>
        some ({ time := current_time, lat_deg := geo.1,
                lon_deg := geo.2.1, alt_km := geo.2.2 / 1000 } :: rest)
  else some []
termination_by (⌊(duration_seconds + 1e-9 - elapsed) / step_seconds⌋ + 1).toNat
decreasing_by
  have hnum : 0 ≤ duration_seconds + 1e-9 - elapsed := by linarith
  have hx : 0 ≤ (duration_seconds + 1e-9 - elapsed) / step_seconds :=
    div_nonneg hnum hstep.le
  have hfl : (0:ℤ) ≤ ⌊(duration_seconds + 1e-9 - elapsed) / step_seconds⌋ :=
    Int.floor_nonneg.mpr hx
  have heq : (duration_seconds + 1e-9 - (elapsed + step_seconds)) / step_seconds
      = (duration_seconds + 1e-9 - elapsed) / step_seconds - 1 := by
    field_simp
    ring
  rw [heq, Int.floor_sub_one]
  omega

/-- Unfolding equation for `groundTrackLoop` with the `let`s inlined. -/
lemma groundTrackLoop_eq (F : CoordFrames)
    (start duration_seconds step_seconds a inc_rad raan_rad nu_at_start n : ℝ)
    (hstep : 0 < step_seconds) (elapsed : ℝ) :
    groundTrackLoop F start duration_seconds step_seconds a inc_rad raan_rad
        nu_at_start n hstep elapsed =
      if elapsed ≤ duration_seconds + 1e-9 then
        match kepler_to_cartesian a 0 inc_rad raan_rad 0
            (nu_at_start + n * elapsed) with
        | none => none
        | some pv =>
          match groundTrackLoop F start duration_seconds step_seconds a inc_rad
              raan_rad nu_at_start n hstep (elapsed + step_seconds) with
          | none => none
          | some rest =>
            some ({ time := start + elapsed,
                    lat_deg := (F.ecef_to_geodetic
                      (F.eci_to_ecef pv.1 (0, 0, 0)
                        (F.gmst_rad (start + elapsed))).1).1,
                    lon_deg := (F.ecef_to_geodetic
                      (F.eci_to_ecef pv.1 (0, 0, 0)
                        (F.gmst_rad (start + elapsed))).1).2.1,
                    alt_km := (F.ecef_to_geodetic
                      (F.eci_to_ecef pv.1 (0, 0, 0)
                        (F.gmst_rad (start + elapsed))).1).2.2 / 1000 } :: rest)
      else some [] := by
  rw [groundTrackLoop]
  rfl

/-- Embedding of `compute_ground_track`.  `none` models the raised
exceptions: the explicit `ValueError` on non-positive step, and the
`ZeroDivisionError` when the position magnitude (hence `a`) is zero.
In exact real arithmetic `acos(hz/h_mag)` is always in domain when
`h_mag > 0`, so `Real.arccos` models `math.acos` faithfully there. -/
noncomputable def compute_ground_track (F : CoordFrames)
    (satellite : Satellite) (start duration step : ℝ) :
    Option (List GroundTrackPoint) :=
  if hstep : step ≤ 0 then none
  else
    let px := satellite.position_eci.1
    let py := satellite.position_eci.2.1
    let pz := satellite.position_eci.2.2
    let vx := satellite.velocity_eci.1
    let vy := satellite.velocity_eci.2.1
    let vz := satellite.velocity_eci.2.2
    let r_mag := Real.sqrt (px ^ 2 + py ^ 2 + pz ^ 2)
    let a := r_mag
    if a = 0 then none
    else
      let n := Real.sqrt (MU_EARTH / a ^ 3)
      let hx := py * vz - pz * vy
      let hy := pz * vx - px * vz
      let hz := px * vy - py * vx
      let h_mag := Real.sqrt (hx ^ 2 + hy ^ 2 + hz ^ 2)
      let inc_rad := if 0 < h_mag then Real.arccos (hz / h_mag) else 0
      let raan_rad := radians satellite.raan_deg
      let nu_0_rad := radians satellite.true_anomaly_deg
      let nu_at_start :=
        match satellite.epoch with
        | some epoch => nu_0_rad + n * (start - epoch)
        | none => nu_0_rad
      groundTrackLoop F start duration step a inc_rad raan_rad nu_at_start n
        (not_le.mp hstep) 0

/-- A concrete coordinate-frames instance (constant transforms) used to
evaluate the ground-track model on closed inputs. -/
def trivialFrames : CoordFrames where
  gmst_rad := fun _ => 0
  eci_to_ecef := fun _ _ _ => ((0, 0, 0), (0, 0, 0))
  ecef_to_geodetic := fun _ => (0, 0, 0)

/-- A concrete satellite on the x axis at rest, with no epoch. -/
def sampleSatellite : Satellite where
  position_eci := (1, 0, 0)
  velocity_eci := (0, 0, 0)
  raan_deg := 0
  true_anomaly_deg := 0
  epoch := none

/-- Characterisation of the sampling loop: with a positive step and a
positive semi-major axis it returns a list whose `k`-th timestamp is
`start + elapsed + k*step`, all bounded by the epsilon-padded end time,
and nonempty whenever the entry guard holds. -/
lemma groundTrackLoop_spec (F : CoordFrames)
    (start dS sS a inc raan nu0 n : ℝ) (hstep : 0 < sS) (ha : 0 < a) :
    ∀ m : ℕ, ∀ elapsed : ℝ,
      (⌊(dS + 1e-9 - elapsed) / sS⌋ + 1).toNat ≤ m →
      ∃ l : List GroundTrackPoint,
        groundTrackLoop F start dS sS a inc raan nu0 n hstep elapsed = some l ∧
        (∀ k : ℕ, ∀ hk : k < l.length,
          (l.get ⟨k, hk⟩).time = start + (elapsed + k * sS)) ∧
        (∀ p ∈ l, p.time ≤ start + dS + 1e-9) ∧
        (elapsed ≤ dS + 1e-9 → l ≠ []) := by
  intro m
  induction m with
  | zero =>
    intro elapsed hle
    have hgt : dS + 1e-9 < elapsed := by
      by_contra hcon
      push_neg at hcon
      have hx : 0 ≤ (dS + 1e-9 - elapsed) / sS :=
        div_nonneg (by linarith) hstep.le
      have hfl := Int.floor_nonneg.mpr hx
      omega
    refine ⟨[], ?_, ?_, ?_, ?_⟩
    · rw [groundTrackLoop_eq, if_neg (not_le.mpr hgt)]
    · intro k hk
      exact absurd hk (by simp)
    · intro p hp
      exact absurd hp (by simp)
    · intro hcon
      exact absurd hcon (not_le.mpr hgt)
  | succ m ih =>
    intro elapsed hle
    by_cases hguard : elapsed ≤ dS + 1e-9
    · have hkep := kepler_elliptic_isSome a 0 inc raan 0 (nu0 + n * elapsed)
        ha le_rfl (by norm_num)
      obtain ⟨pv, hpv⟩ := Option.isSome_iff_exists.mp hkep
      have hmeas : (⌊(dS + 1e-9 - (elapsed + sS)) / sS⌋ + 1).toNat ≤ m := by
        have heq : (dS + 1e-9 - (elapsed + sS)) / sS
            = (dS + 1e-9 - elapsed) / sS - 1 := by
          field_simp
          ring
        have hx : 0 ≤ (dS + 1e-9 - elapsed) / sS :=
          div_nonneg (by linarith) hstep.le
        have hfl := Int.floor_nonneg.mpr hx
        rw [heq, Int.floor_sub_one]
        omega
      obtain ⟨rest, hrest, htimes, hbound, _⟩ := ih (elapsed + sS) hmeas
      refine ⟨{ time := start + elapsed,
                lat_deg := (F.ecef_to_geodetic
                  (F.eci_to_ecef pv.1 (0, 0, 0)
                    (F.gmst_rad (start + elapsed))).1).1,
                lon_deg := (F.ecef_to_geodetic
                  (F.eci_to_ecef pv.1 (0, 0, 0)
                    (F.gmst_rad (start + elapsed))).1).2.1,
                alt_km := (F.ecef_to_geodetic
                  (F.eci_to_ecef pv.1 (0, 0, 0)
                    (F.gmst_rad (start + elapsed))).1).2.2 / 1000 } :: rest,
              ?_, ?_, ?_, by simp⟩
      · rw [groundTrackLoop_eq, if_pos hguard, hpv, hrest]
      · intro k hk
        cases k with
        | zero =>
          simp only [List.get, Nat.cast_zero]
          ring
        | succ k2 =>
          have hk2 : k2 < rest.length := by
            simpa using Nat.lt_of_succ_lt_succ hk
          have hr := htimes k2 hk2
          simp only [List.get]
          rw [hr]
          push_cast
          ring
      · intro p hp
        rcases List.mem_cons.mp hp with hp | hp
        · rw [hp]
          dsimp only
          linarith
        · exact hbound p hp
    · refine ⟨[], ?_, ?_, ?_, fun hcon => absurd hcon hguard⟩
      · rw [groundTrackLoop_eq, if_neg hguard]
      · intro k hk
        exact absurd hk (by simp)
      · intro p hp
        exact absurd hp (by simp)

/-- C9: for any satellite with a nonzero position (the source raises a
`ZeroDivisionError` on a zero position before any point is produced),
nonnegative duration and positive step, the returned track exists, is
nonempty, its `k`-th timestamp is exactly `start + k*step` (so the
first timestamp is `start` and consecutive timestamps increase by
exactly the step), and every timestamp is at most
`start + duration + 1e-9`. -/
theorem compute_ground_track_time_monotonic (F : CoordFrames)
    (sat : Satellite) (start duration step : ℝ)
    (hpos : 0 < sat.position_eci.1 ^ 2 + sat.position_eci.2.1 ^ 2 +
      sat.position_eci.2.2 ^ 2)
    (hdur : 0 ≤ duration) (hstep : 0 < step) :
    ∃ pts : List GroundTrackPoint,
      compute_ground_track F sat start duration step = some pts ∧
      0 < pts.length ∧
      (∀ k : ℕ, ∀ hk : k < pts.length,
        (pts.get ⟨k, hk⟩).time = start + k * step) ∧
      (∀ p ∈ pts, p.time ≤ start + duration + 1e-9) := by
  have hns : ¬(step ≤ 0) := not_le.mpr hstep
  have ha : (0:ℝ) < Real.sqrt (sat.position_eci.1 ^ 2 +
      sat.position_eci.2.1 ^ 2 + sat.position_eci.2.2 ^ 2) :=
    Real.sqrt_pos.mpr hpos
  unfold compute_ground_track
  rw [dif_neg hns]
  dsimp only
  rw [if_neg ha.ne']
  obtain ⟨l, hl, htimes, hbound, hne⟩ :=
    groundTrackLoop_spec F start duration step _ _ _ _ _ (not_le.mp hns) ha
      ((⌊(duration + 1e-9 - 0) / step⌋ + 1).toNat) 0 le_rfl
  refine ⟨l, hl, ?_, ?_, hbound⟩
  · have heps : (0:ℝ) < 1e-9 := by norm_num
    exact List.length_pos.mpr (hne (by linarith))
  · intro k hk
    have hk2 := htimes k hk
    rw [hk2]
    ring

/-- Witness for C9 with the trivial frames, a unit-x satellite, zero
start, zero duration and unit step. -/
theorem compute_ground_track_time_monotonic_witness :
    ((0:ℝ) < sampleSatellite.position_eci.1 ^ 2 +
        sampleSatellite.position_eci.2.1 ^ 2 +
        sampleSatellite.position_eci.2.2 ^ 2 ∧
      (0:ℝ) ≤ 0 ∧ (0:ℝ) < 1) ∧
    ∃ pts : List GroundTrackPoint,
      compute_ground_track trivialFrames sampleSatellite 0 0 1 = some pts ∧
      0 < pts.length ∧
      (∀ k : ℕ, ∀ hk : k < pts.length,
        (pts.get ⟨k, hk⟩).time = 0 + k * 1) ∧
      (∀ p ∈ pts, p.time ≤ 0 + 0 + 1e-9) :=
  ⟨⟨by norm_num [sampleSatellite], le_rfl, by norm_num⟩,
   compute_ground_track_time_monotonic trivialFrames sampleSatellite 0 0 1
     (by norm_num [sampleSatellite]) le_rfl (by norm_num)⟩

/-- C5 amended: a non-positive step raises (`none`); a duration below
the `-1e-9` epsilon does not raise — the function silently returns the
empty list (for any satellite the source can fully process, i.e. with
nonzero position magnitude). -/
theorem compute_ground_track_step_duration_validation (F : CoordFrames)
    (sat : Satellite) (start duration step : ℝ) :
    (step ≤ 0 → compute_ground_track F sat start duration step = none) ∧
    (0 < step → duration + 1e-9 < 0 →
      0 < sat.position_eci.1 ^ 2 + sat.position_eci.2.1 ^ 2 +
        sat.position_eci.2.2 ^ 2 →
      compute_ground_track F sat start duration step = some []) := by
  constructor
  · intro hs
    unfold compute_ground_track
    rw [dif_pos hs]
  · intro hstep hdurneg hpos
    have hns : ¬(step ≤ 0) := not_le.mpr hstep
    have ha : (0:ℝ) < Real.sqrt (sat.position_eci.1 ^ 2 +
        sat.position_eci.2.1 ^ 2 + sat.position_eci.2.2 ^ 2) :=
      Real.sqrt_pos.mpr hpos
    unfold compute_ground_track
    rw [dif_neg hns]
    dsimp only
    rw [if_neg ha.ne']
    rw [groundTrackLoop_eq,
      if_neg (by linarith : ¬((0:ℝ) ≤ duration + 1e-9))]

/-- Witness for the amended C5: zero step raises; duration -1 s with
unit step returns the empty list. -/
theorem compute_ground_track_step_duration_validation_witness :
    ((0:ℝ) ≤ 0 ∧
      compute_ground_track trivialFrames sampleSatellite 0 1 0 = none) ∧
    ((0:ℝ) < 1 ∧ (-1:ℝ) + 1e-9 < 0 ∧
      (0:ℝ) < sampleSatellite.position_eci.1 ^ 2 +
        sampleSatellite.position_eci.2.1 ^ 2 +
        sampleSatellite.position_eci.2.2 ^ 2 ∧
      compute_ground_track trivialFrames sampleSatellite 0 (-1) 1 = some []) :=
  ⟨⟨le_rfl,
    (compute_ground_track_step_duration_validation trivialFrames
      sampleSatellite 0 1 0).1 le_rfl⟩,
   ⟨by norm_num, by norm_num, by norm_num [sampleSatellite],
    (compute_ground_track_step_duration_validation trivialFrames
      sampleSatellite 0 (-1) 1).2 (by norm_num) (by norm_num)
      (by norm_num [sampleSatellite])⟩⟩

/-- Counterexample for C5 as stated: at duration -1 s (non-positive)
and step 1 s, `compute_ground_track` does not raise — it silently
returns the empty list. -/
theorem compute_ground_track_negative_duration_counterexample :
    compute_ground_track trivialFrames sampleSatellite 0 (-1) 1 = some [] := by
  unfold compute_ground_track
  rw [dif_neg (by norm_num : ¬((1:ℝ) ≤ 0))]
  dsimp only [sampleSatellite]
  have h1 : Real.sqrt ((1:ℝ) ^ 2 + 0 ^ 2 + 0 ^ 2) = 1 := by
    norm_num
  rw [h1, if_neg (by norm_num : ¬((1:ℝ) = 0))]
  rw [groundTrackLoop_eq, if_neg (by norm_num : ¬((0:ℝ) ≤ -1 + 1e-9))]

end ConstellationGenerator
